import Mathlib

/-!
Verification of the snow-globe weather application core.

The development shallowly embeds the TypeScript core over the rationals.
Floating-point transcendental functions (Math.sin, Math.cos, Math.sqrt) and
the constant Math.PI are modelled by an explicit oracle record Env: every
definition takes the oracle as a parameter, and theorems that need a property
of the oracle (for example that sine values lie in [-1, 1]) assume it
explicitly.  Calls to Math.random, which is a genuine entropy source, are
modelled as explicit draw parameters; the seeded generator RNG, which is
deterministic, is modelled by threading its integer seed counter.
-/

/-- Weather categories, from the WeatherCondition enum in the types module. -/
inductive WeatherCondition where
  | Clear
  | Clouds
  | Rain
  | Snow
  | Thunderstorm
  | Drizzle
deriving DecidableEq

/-- Oracle for the float math functions used by the source: sinQ, cosQ and
sqrtQ stand for Math.sin, Math.cos and Math.sqrt, and piQ for Math.PI. -/
structure Env where
  sinQ : ℚ → ℚ
  cosQ : ℚ → ℚ
  sqrtQ : ℚ → ℚ
  piQ : ℚ

/-- Fractional part, as in the expression x - Math.floor(x). -/
def fract (q : ℚ) : ℚ := q - (⌊q⌋ : ℚ)

/-- Snow globe radius constant GLOBE_RADIUS = 9.0 from the Particles component. -/
def GLOBE_RADIUS : ℚ := 9

/-- Per-particle simulation state of the Particles component: position,
base fall speeds, swirl phase offset and velocity components. -/
structure Particle where
  x : ℚ
  y : ℚ
  z : ℚ
  originalSpeed : ℚ
  speed : ℚ
  swirlOffset : ℚ
  vx : ℚ
  vy : ℚ
  vz : ℚ
deriving DecidableEq

/-- The Math.random() draws a single particle tick can consume: three shake
jitter draws and the three respawn draws (height band, x, z). -/
structure TickDraws where
  shakeX : ℚ
  shakeY : ℚ
  shakeZ : ℚ
  respawnR : ℚ
  respawnX : ℚ
  respawnZ : ℚ
deriving DecidableEq

/-- Shake forcing on velocity: if shakeIntensity > 0, each axis gains
(Math.random() - 0.5) * shakeIntensity * 0.5. -/
def applyShake (shakeIntensity d1 d2 d3 vx vy vz : ℚ) : ℚ × ℚ × ℚ :=
  if shakeIntensity > 0 then
    (vx + (d1 - 0.5) * shakeIntensity * 0.5,
     vy + (d2 - 0.5) * shakeIntensity * 0.5,
     vz + (d3 - 0.5) * shakeIntensity * 0.5)
  else
    (vx, vy, vz)

/-- Wind forcing on velocity: if windIntensity > 0.1, the horizontal velocity
components gain windX * 0.5 and windZ * 0.5. -/
def applyWind (windIntensity windX windZ vx vy vz : ℚ) : ℚ × ℚ × ℚ :=
  if windIntensity > 0.1 then
    (vx + windX * 0.5, vy, vz + windZ * 0.5)
  else
    (vx, vy, vz)

/-- Movement stage of one particle tick (steps before the containment
check): shake impulse, wind impulse, drag, base fall with tripling for heavy
precipitation, and swirl.  windX and windZ are
Math.sin(t * 0.5) * windIntensity * 0.2 and Math.cos(t * 0.3) * windIntensity * 0.2
computed through the oracle. -/
def particleMoved (env : Env) (condition : WeatherCondition)
    (shakeIntensity windIntensity t : ℚ) (d : TickDraws) (p : Particle) : Particle :=
  let windX := env.sinQ (t * 0.5) * windIntensity * 0.2
  let windZ := env.cosQ (t * 0.3) * windIntensity * 0.2
  let v1 := applyShake shakeIntensity d.shakeX d.shakeY d.shakeZ p.vx p.vy p.vz
  let v2 := applyWind windIntensity windX windZ v1.1 v1.2.1 v1.2.2
  -- drag: velocity.multiplyScalar(0.9)
  let vx := v2.1 * 0.9
  let vy := v2.2.1 * 0.9
  let vz := v2.2.2 * 0.9
  -- base fall, tripled for heavy precipitation
  let fallSpeed :=
    if condition = .Rain ∨ condition = .Thunderstorm then p.originalSpeed * 3
    else p.originalSpeed
  let y1 := p.y - (fallSpeed + vy)
  let x1 := p.x + vx
  let z1 := p.z + vz
  -- swirl effect
  let swirlStrength := 0.02 + shakeIntensity * 0.1
  let x2 := x1 + env.cosQ (t + p.swirlOffset) * swirlStrength
  let z2 := z1 + env.sinQ (t + p.swirlOffset) * swirlStrength
  { p with x := x2, y := y1, z := z2, vx := vx, vy := vy, vz := vz }

/-- Respawn stage of one particle tick: new height in the top band, upwind
horizontal bias when windIntensity > 2, velocity reset to zero.  All fields
the movement stage had changed are overwritten here, so the record can be
based on the pre-tick particle. -/
def particleRespawn (env : Env) (windIntensity t : ℚ) (d : TickDraws) (p : Particle) :
    Particle :=
  let windX := env.sinQ (t * 0.5) * windIntensity * 0.2
  let windZ := env.cosQ (t * 0.3) * windIntensity * 0.2
  let r := (0.5 + d.respawnR * 0.5) * GLOBE_RADIUS * 0.8
  { p with
    x := if windIntensity > 2 then -windX * 50 + (d.respawnX - 0.5) * 5
         else (d.respawnX - 0.5) * GLOBE_RADIUS,
    y := |r|,
    z := if windIntensity > 2 then -windZ * 50 + (d.respawnZ - 0.5) * 5
         else (d.respawnZ - 0.5) * GLOBE_RADIUS,
    vx := 0, vy := 0, vz := 0 }

/-- One tick of the particle simulator (the per-particle body of the useFrame
callback in the Particles component): move, then reset when the particle has
fallen below the floor or has left the containment sphere while below the
midplane. -/
def particleTick (env : Env) (condition : WeatherCondition)
    (shakeIntensity windIntensity t : ℚ) (d : TickDraws) (p : Particle) : Particle :=
  let moved := particleMoved env condition shakeIntensity windIntensity t d p
  let distSq := moved.x * moved.x + moved.y * moved.y + moved.z * moved.z
  -- reset logic
  if moved.y < -5 ∨ (distSq > GLOBE_RADIUS * GLOBE_RADIUS ∧ moved.y < 0) then
    particleRespawn env windIntensity t d p
  else
    moved

/-- Render output of the Particles component: the component returns null (no
instancedMesh, hence no primitives) for Clear and Clouds, and otherwise an
instanced mesh with the given particle count. -/
def particlesRender (condition : WeatherCondition) (count : ℕ) : Option ℕ :=
  if condition = .Clear ∨ condition = .Clouds then none else some count

/-- Number of particle primitives emitted for a weather category. -/
def emittedPrimitives (condition : WeatherCondition) (count : ℕ) : ℕ :=
  (particlesRender condition count).getD 0

/-- One frame of the particle simulator.  The useFrame callback exits before
any per-particle work when the instanced mesh ref is null, which is exactly
when the component rendered no mesh (Clear or Clouds). -/
def particlesFrame (env : Env) (condition : WeatherCondition)
    (shakeIntensity windIntensity t : ℚ) (count : ℕ)
    (ps : List (Particle × TickDraws)) : List Particle :=
  if (particlesRender condition count).isSome then
    ps.map (fun pd => particleTick env condition shakeIntensity windIntensity t pd.2 pd.1)
  else
    ps.map Prod.fst

/-- Linear decay step shared by the two decay timers: if the scalar is
positive, subtract the step and floor at zero (Math.max(0, prev - step)),
otherwise the timer is not armed and the scalar is left unchanged. -/
def decayStep (step s : ℚ) : ℚ := if 0 < s then max 0 (s - step) else s

/-- Decay of the shake intensity scalar in WeatherScene: every 100 ms,
setShakeIntensity(prev => Math.max(0, prev - 0.1)), armed only while the
scalar is positive. -/
def shakeDecayStep : ℚ → ℚ := decayStep 0.1

/-- Decay of the remote wind intensity scalar in App: every 100 ms,
setRemoteWindIntensity(prev => Math.max(0, prev - 0.2)), armed only while the
scalar is positive. -/
def remoteWindDecayStep : ℚ → ℚ := decayStep 0.2

/-- Peer data handler for a shake message in App:
setRemoteWindIntensity(prev => Math.min(prev + data.intensity, 10)). -/
def remoteShakeMsgStep (intensity prev : ℚ) : ℚ := min (prev + intensity) 10

/-- Peer data handler for a wind message in App:
setRemoteWindIntensity(data.intensity) - the value is stored verbatim. -/
def remoteWindMsgStep (intensity _prev : ℚ) : ℚ := intensity

/-- Device motion handler in WeatherScene: when total force exceeds the
threshold, setShakeIntensity(prev => Math.min(prev + 2, 8)). -/
def deviceMotionShakeStep (prev : ℚ) : ℚ := min (prev + 2) 8

/-- One sampling step (dt > 0.1) of the camera based ShakeDetector: when the
azimuth speed exceeds 3 the proposed value becomes Math.min(speed * 0.5, 5),
otherwise the previous proposal decays by the factor 0.9. -/
def shakeDetectorStep (speed v : ℚ) : ℚ :=
  if speed > 3 then min (speed * 0.5) 5 else v * 0.9

/-- Events that can change the shake intensity scalar of WeatherScene. -/
inductive ShakeEvent where
  | deviceMotion
  | detectorFrame (speed : ℚ)
  | decayTick
deriving DecidableEq

/-- Combined state of the ShakeDetector proposal and the shake intensity
scalar held by WeatherScene. -/
structure ShakeSystemState where
  detectorV : ℚ
  shakeIntensity : ℚ
deriving DecidableEq

/-- Transition of the shake system.  A detector frame always reports its
proposal through onShake, and WeatherScene replaces the current scalar only
when the proposal is larger (if (val > shakeIntensity) setShakeIntensity(val)). -/
def shakeSystemStep (e : ShakeEvent) (s : ShakeSystemState) : ShakeSystemState :=
  match e with
  | .deviceMotion => { s with shakeIntensity := deviceMotionShakeStep s.shakeIntensity }
  | .detectorFrame speed =>
      let v := shakeDetectorStep speed s.detectorV
      { detectorV := v,
        shakeIntensity := if v > s.shakeIntensity then v else s.shakeIntensity }
  | .decayTick => { s with shakeIntensity := shakeDecayStep s.shakeIntensity }

/-- Run of the shake system from the initial state (both scalars start at 0). -/
def shakeSystemRun (evs : List ShakeEvent) : ShakeSystemState :=
  evs.foldl (fun s e => shakeSystemStep e s) { detectorV := 0, shakeIntensity := 0 }

/-- THREE.MathUtils.clamp(value, min, max) = Math.max(min, Math.min(max, value)). -/
def clampQ (v lo hi : ℚ) : ℚ := max lo (min hi v)

/-- THREE.MathUtils.degToRad: degrees * (Math.PI / 180). -/
def degToRad (piQ deg : ℚ) : ℚ := deg * piQ / 180

/-- THREE.MathUtils.lerp(x, y, t) = (1 - t) * x + t * y. -/
def lerpQ (a b t : ℚ) : ℚ := (1 - t) * a + t * b

/-- World rotation offset held by the SceneGroup component. -/
structure OrientationState where
  rotX : ℚ
  rotZ : ℚ
deriving DecidableEq

/-- One useFrame step of SceneGroup: with a remote orientation signal, clamp
the converted tilt angles to [-pi/4, pi/4] and interpolate toward them at
rate 0.1 (with the gamma axis sign inverted); without a signal, interpolate
toward zero at rate 0.05. -/
def orientationStep (piQ : ℚ) (signal : Option (ℚ × ℚ)) (s : OrientationState) :
    OrientationState :=
  match signal with
  | some bg =>
      let targetX := clampQ (degToRad piQ bg.1) (-(piQ / 4)) (piQ / 4)
      let targetZ := clampQ (degToRad piQ bg.2) (-(piQ / 4)) (piQ / 4)
      { rotX := lerpQ s.rotX targetX 0.1, rotZ := lerpQ s.rotZ (-targetZ) 0.1 }
  | none =>
      { rotX := lerpQ s.rotX 0 0.05, rotZ := lerpQ s.rotZ 0 0.05 }

/-- Orientation trajectory from the neutral rotation under a stream of
optional remote tilt signals. -/
def orientationTrace (piQ : ℚ) (signals : ℕ → Option (ℚ × ℚ)) : ℕ → OrientationState
  | 0 => { rotX := 0, rotZ := 0 }
  | n + 1 => orientationStep piQ (signals n) (orientationTrace piQ signals n)

/-- Classification of a retained grid cell in CityPointModel: the boolean
cascade isWater / isPark / isRoad over the (possibly overridden) noise value,
where roadDraw is the rand() draw consumed by the road probability check. -/
inductive CellClass where
  | water
  | park
  | road
  | building
deriving DecidableEq

/-- Cell classification from CityPointModel:
isWater = noise < -1.2 + style.waterBias;
isPark = not water and noise > 1.3;
isRoad = not water, not park, and rand() > (dense layout, 0.85, otherwise 0.6);
otherwise building. -/
def classifyCell (noise waterBias : ℚ) (dense : Bool) (roadDraw : ℚ) : CellClass :=
  if noise < -1.2 + waterBias then .water
  else if noise > 1.3 then .park
  else if roadDraw > (if dense then 0.85 else 0.6) then .road
  else .building

/-- Layout modes appearing in the CITY_STYLES table. -/
inductive Layout where
  | organic
  | grid
  | dense
  | sparse
  | village
  | walled
deriving DecidableEq

/-- Style profile record, the CITY_STYLES entries of CityPointModel. -/
structure CityStyle where
  palette : List String
  groundColor : Option String := none
  waterBias : ℚ
  layout : Layout
  heightScale : ℚ
  roadColor : String
  hasRedBuses : Bool := false
  hasYellowTaxis : Bool := false
  centralPark : Bool := false
  neon : Bool := false
  snowy : Bool := false
  hasBoats : Bool := false
  spire : Bool := false
  roofStyle : Option String := none
deriving DecidableEq

/-- The fallback DEFAULT_STYLE profile. -/
def DEFAULT_STYLE : CityStyle :=
  { palette := ["#9ca3af", "#d1d5db", "#4b5563"],
    waterBias := 0,
    layout := .organic,
    heightScale := 1,
    roadColor := "#e5e5e5" }

/-- Style resolution CITY_STYLES[cityName] || DEFAULT_STYLE. -/
def styleOf (cityName : String) : CityStyle :=
  if cityName = "London" then
    { palette := ["#8b4513", "#a0522d", "#696969", "#dcdcdc"],
      waterBias := 0.3, layout := .organic, heightScale := 1.5,
      roadColor := "#e5e5e5", hasRedBuses := true, roofStyle := some "varied" }
  else if cityName = "New York" then
    { palette := ["#1f2937", "#374151", "#9ca3af", "#bfdbfe"],
      waterBias := -0.5, layout := .grid, heightScale := 4,
      roadColor := "#e5e5e5", hasYellowTaxis := true, centralPark := true }
  else if cityName = "Tokyo" then
    { palette := ["#1a1a1a", "#2d2d2d", "#e5e5e5", "#3b82f6"],
      waterBias := 0.1, layout := .dense, heightScale := 2.5,
      roadColor := "#e5e5e5", neon := true }
  else if cityName = "Dubai" then
    { palette := ["#e0f2fe", "#f0f9ff", "#94a3b8"],
      groundColor := some "#fef3c7", waterBias := 0, layout := .sparse,
      heightScale := 5, roadColor := "#f3f4f6" }
  else if cityName = "Reykjavik" then
    { palette := ["#ef4444", "#22c55e", "#3b82f6", "#fcd34d", "#ffffff"],
      waterBias := 0.4, layout := .village, heightScale := 0.6,
      roadColor := "#f3f4f6", snowy := true }
  else if cityName = "Stockholm" then
    { palette := ["#e4c594", "#d69e6e", "#c46d50", "#8c4b38", "#e9e4d8"],
      waterBias := 0.5, layout := .organic, heightScale := 1.2,
      roadColor := "#f3f4f6", hasBoats := true, spire := true }
  else if cityName = "Nicosia" then
    { palette := ["#d6c096", "#eaddcf", "#a8a29e"],
      groundColor := some "#e7e5e4", waterBias := -1, layout := .walled,
      heightScale := 0.8, roadColor := "#e7e5e4" }
  else DEFAULT_STYLE

/-- Seed derivation: split the city name into characters and reduce with
(acc, c) => acc + c.charCodeAt(0) starting from 0. -/
def seedOf (cityName : String) : ℕ :=
  cityName.data.foldl (fun acc c => acc + c.toNat) 0

/-- One draw of the seeded RNG of CityPointModel:
const x = Math.sin(seed++) * 10000; return x - Math.floor(x).
Returns the drawn value in [0, 1) together with the incremented seed. -/
def randDraw (env : Env) (seed : ℕ) : ℚ × ℕ :=
  (fract (env.sinQ (seed : ℚ) * 10000), seed + 1)

/-- One emitted instance: the transform captured from the dummy object at
push time (position, rotation, scale) together with the color, and the
optional isLight tag used for streetlamps. -/
structure Prim where
  posX : ℚ
  posY : ℚ
  posZ : ℚ
  rotX : ℚ
  rotY : ℚ
  rotZ : ℚ
  sclX : ℚ
  sclY : ℚ
  sclZ : ℚ
  color : String
  isLight : Bool := false
deriving DecidableEq

/-- One ambient presence marker: transform plus the random pulse phase. -/
structure PresencePrim where
  posX : ℚ
  posY : ℚ
  posZ : ℚ
  sclX : ℚ
  sclY : ℚ
  sclZ : ℚ
  phase : ℚ
deriving DecidableEq

/-- Accumulator of the generation loop: RNG seed counter plus the four
collections being built. -/
structure GenAcc where
  seed : ℕ
  terrain : List Prim
  buildings : List Prim
  props : List Prim
  presence : List PresencePrim

/-- The four output collections of one generation pass. -/
structure GenResult where
  buildings : List Prim
  terrain : List Prim
  props : List Prim
  presenceLights : List PresencePrim
deriving DecidableEq

/-- Processing of one grid cell of the generation loop in CityPointModel.
Cells whose distance from the center exceeds half - 1 = 8 are skipped.  The
RNG draws are threaded in exactly the evaluation order of the source,
including the short-circuit draws (the road probability draw happens only for
non-water non-park cells, the boat draw only when the style has boats, the
spire draw only when the style has a spire and the cell is central, and so
on). -/
def genCell (env : Env) (style : CityStyle) (x z : ℤ) (acc : GenAcc) : GenAcc :=
  let dist := env.sqrtQ ((x * x + z * z : ℤ) : ℚ)
  if dist > 9 - 1 then acc
  else
    let posX := (x : ℚ) * (0.8 + 0.1)
    let posZ := (z : ℚ) * (0.8 + 0.1)
    let dN := randDraw env acc.seed
    let noise0 := env.sinQ ((x : ℚ) * 0.4) + env.cosQ ((z : ℚ) * 0.4) + dN.1 * 0.5
    -- central park override, then grid street override (the later assignment wins)
    let noise1 := if style.centralPark ∧ -2 < x ∧ x < 2 ∧ -4 < z ∧ z < 4 then 1.5 else noise0
    let noise := if style.layout = .grid ∧ (x % 3 = 0 ∨ z % 3 = 0) then 0.5 else noise1
    let seed1 := dN.2
    if noise < -1.2 + style.waterBias then
      let tile : Prim := { posX := posX, posY := 0, posZ := posZ,
                           rotX := 0, rotY := 0, rotZ := 0,
                           sclX := 0.8, sclY := 0.1, sclZ := 0.8, color := "#bfdbfe" }
      let acc1 := { acc with terrain := acc.terrain ++ [tile] }
      if style.hasBoats then
        let dB := randDraw env seed1
        if dB.1 > 0.95 then
          let dY := randDraw env dB.2
          let boat : Prim := { posX := posX, posY := 0.1, posZ := posZ,
                               rotX := 0, rotY := dY.1 * env.piQ, rotZ := 0,
                               sclX := 0.3, sclY := 0.2, sclZ := 0.6, color := "#fdfbf7" }
          { acc1 with seed := dY.2, props := acc1.props ++ [boat] }
        else { acc1 with seed := dB.2 }
      else { acc1 with seed := seed1 }
    else if noise > 1.3 then
      let tile : Prim := { posX := posX, posY := 0.1, posZ := posZ,
                           rotX := 0, rotY := 0, rotZ := 0,
                           sclX := 0.8, sclY := 0.2, sclZ := 0.8, color := "#d1fae5" }
      let acc1 := { acc with terrain := acc.terrain ++ [tile] }
      let dT := randDraw env seed1
      if dT.1 > 0.3 then
        let dX := randDraw env dT.2
        let dZ := randDraw env dX.2
        let dHt := randDraw env dZ.2
        let tree : Prim := { posX := posX + (dX.1 - 0.5) * 0.3, posY := 0.35,
                             posZ := posZ + (dZ.1 - 0.5) * 0.3,
                             rotX := 0, rotY := 0, rotZ := 0,
                             sclX := 0.2, sclY := 0.4 + dHt.1 * 0.3, sclZ := 0.2,
                             color := "#064e3b" }
        { acc1 with seed := dHt.2, props := acc1.props ++ [tree] }
      else { acc1 with seed := dT.2 }
    else
      let dR := randDraw env seed1
      if dR.1 > (if style.layout = .dense then 0.85 else 0.6) then
        let dJ := randDraw env dR.2
        let jitterY := dJ.1 * 0.03
        let tile : Prim := { posX := posX, posY := 0.05 + jitterY, posZ := posZ,
                             rotX := 0, rotY := 0, rotZ := 0,
                             sclX := 0.8, sclY := 0.1, sclZ := 0.8,
                             color := style.groundColor.getD style.roadColor }
        let acc1 := { acc with terrain := acc.terrain ++ [tile] }
        let dL := randDraw env dJ.2
        let busCheck := fun (seedB : ℕ) =>
          if style.hasRedBuses then
            let dBs := randDraw env seedB
            if dBs.1 > 0.9 then
              let dYw := randDraw env dBs.2
              let bus : Prim := { posX := posX, posY := 0.25, posZ := posZ,
                                  rotX := 0, rotY := dYw.1 * env.piQ, rotZ := 0,
                                  sclX := 0.25, sclY := 0.3, sclZ := 0.6, color := "#dc2626" }
              { acc1 with seed := dYw.2, props := acc1.props ++ [bus] }
            else { acc1 with seed := dBs.2 }
          else { acc1 with seed := seedB }
        if dL.1 > 0.8 then
          let lamp : Prim := { posX := posX + 0.3, posY := 0.5, posZ := posZ + 0.3,
                               rotX := 0, rotY := 0, rotZ := 0,
                               sclX := 0.05, sclY := 1, sclZ := 0.05,
                               color := "#fbbf24", isLight := true }
          { acc1 with seed := dL.2, props := acc1.props ++ [lamp] }
        else if style.hasYellowTaxis then
          let dTx := randDraw env dL.2
          if dTx.1 > 0.85 then
            let dYw := randDraw env dTx.2
            let taxi : Prim := { posX := posX, posY := 0.15, posZ := posZ,
                                 rotX := 0, rotY := dYw.1 * env.piQ, rotZ := 0,
                                 sclX := 0.4, sclY := 0.15, sclZ := 0.2, color := "#fbbf24" }
            { acc1 with seed := dYw.2, props := acc1.props ++ [taxi] }
          else busCheck dTx.2
        else busCheck dL.2
      else
        let centerFactor := 1 - min (dist / (9 * 0.8)) 1
        let dH := randDraw env dR.2
        let baseHeight := (0.5 + dH.1 * 4 * (centerFactor * centerFactor)) * style.heightScale
        let hs : ℚ × Bool × ℕ :=
          if style.spire ∧ dist < 1.5 then
            let dS := randDraw env dH.2
            if dS.1 > 0.85 then
              let dS2 := randDraw env dS.2
              (7 + dS2.1 * 2, true, dS2.2)
            else (baseHeight, false, dS.2)
          else (baseHeight, false, dH.2)
        let height := if hs.1 < 0.4 then 0.4 else hs.1
        let isSpire := hs.2.1
        let seedB := hs.2.2
        let dC := randDraw env seedB
        let colorHex :=
          if isSpire then "#2f3e46"
          else style.palette.getD (⌊dC.1 * (style.palette.length : ℚ)⌋).toNat ""
        let bld : Prim := { posX := posX, posY := height / 2 + 0.1, posZ := posZ,
                            rotX := 0, rotY := 0, rotZ := 0,
                            sclX := if isSpire then 0.8 * 0.8 else 0.8,
                            sclY := height,
                            sclZ := if isSpire then 0.8 * 0.8 else 0.8,
                            color := colorHex }
        let acc1 := { acc with buildings := acc.buildings ++ [bld] }
        let dP := randDraw env dC.2
        if dP.1 > 0.96 then
          let dSide := randDraw env dP.2
          let dHt := randDraw env dSide.2
          let dPh := randDraw env dHt.2
          let marker : PresencePrim :=
            { posX := posX + (if dSide.1 > 0.5 then (0.3 : ℚ) else -0.3),
              posY := height * dHt.1, posZ := posZ,
              sclX := 0.2, sclY := 0.2, sclZ := 0.2,
              phase := dPh.1 * env.piQ * 2 }
          { acc1 with seed := dPh.2, presence := acc1.presence ++ [marker] }
        else { acc1 with seed := dP.2 }

/-- Integer cell coordinates -9, ..., 8 of the generation loop
(for x = -half; x < half; x++ with half = size / 2 = 9). -/
def coordRange : List ℤ := (List.range 18).map (fun i => (i : ℤ) - 9)

/-- One full generation pass from a given style and initial RNG seed. -/
def generateFrom (env : Env) (style : CityStyle) (seed0 : ℕ) : GenResult :=
  let acc := coordRange.foldl
    (fun a x => coordRange.foldl (fun b z => genCell env style x z b) a)
    { seed := seed0, terrain := [], buildings := [], props := [], presence := [] }
  { buildings := acc.buildings, terrain := acc.terrain,
    props := acc.props, presenceLights := acc.presence }

/-- The generation useMemo of CityPointModel: resolve the style, derive the
seed from the city name, run the pass. -/
def generate (env : Env) (cityName : String) : GenResult :=
  generateFrom env (styleOf cityName) (seedOf cityName)

/-- Concrete oracle with all trig and sqrt values zero, used to instantiate
universally quantified statements. -/
def env0 : Env := { sinQ := fun _ => 0, cosQ := fun _ => 0, sqrtQ := fun _ => 0, piQ := 3 }

/-- Concrete oracle with cosine one and sine zero: the tick time t = 0 gives
Math.cos(0) = 1 and Math.sin(0) = 0, so this oracle is realized at t = 0. -/
def envCos1 : Env := { sinQ := fun _ => 0, cosQ := fun _ => 1, sqrtQ := fun _ => 0, piQ := 3 }

/-- Concrete oracle with sine one and cosine zero: realized for example at
t * 0.5 = pi / 2, a phase the wind oscillation passes through. -/
def envSin1 : Env := { sinQ := fun _ => 1, cosQ := fun _ => 0, sqrtQ := fun _ => 0, piQ := 3 }

/-- A particle just inside the rim of the globe at positive height, with zero
velocity.  Its norm is below GLOBE_RADIUS, so it is a valid in-globe state. -/
def particleAtRim : Particle :=
  { x := 0, y := 1, z := 8.9, originalSpeed := 0.1, speed := 0.1,
    swirlOffset := 0, vx := 0, vy := 0, vz := 0 }

/-- A particle below the floor threshold, about to be respawned. -/
def particleBelowFloor : Particle :=
  { x := 0, y := -6, z := 0, originalSpeed := 0.1, speed := 0.1,
    swirlOffset := 0, vx := 0, vy := 0, vz := 0 }

/-- Midpoint random draws (every Math.random() result is 0.5). -/
def midDraws : TickDraws :=
  { shakeX := 0.5, shakeY := 0.5, shakeZ := 0.5,
    respawnR := 0.5, respawnX := 0.5, respawnZ := 0.5 }

theorem clampQ_mem (v lo hi : ℚ) (h : lo ≤ hi) :
    lo ≤ clampQ v lo hi ∧ clampQ v lo hi ≤ hi := by
  unfold clampQ
  exact ⟨le_max_left _ _, max_le h (min_le_left _ _)⟩

theorem lerpQ_abs_le (a b t m : ℚ) (ha : |a| ≤ m) (hb : |b| ≤ m)
    (ht0 : 0 ≤ t) (ht1 : t ≤ 1) : |lerpQ a b t| ≤ m := by
  unfold lerpQ
  rw [abs_le] at *
  constructor <;> nlinarith [ha.1, ha.2, hb.1, hb.2]

theorem decayStep_iterate (dq : ℚ) (hd : 0 ≤ dq) (s : ℚ) (hs : 0 ≤ s) (n : ℕ) :
    (decayStep dq)^[n] s = max 0 (s - n * dq) := by
  induction n with
  | zero => simp [max_eq_right hs]
  | succ n ih =>
      rw [Function.iterate_succ_apply', ih]
      unfold decayStep
      rcases le_or_lt (s - n * dq) 0 with h | h
      · rw [max_eq_left h, if_neg (lt_irrefl 0)]
        symm
        rw [max_eq_left]
        push_cast
        nlinarith
      · rw [max_eq_right h.le, if_pos h]
        congr 1
        push_cast
        ring

theorem orientationStep_mem (piQ : ℚ) (hpi : 0 < piQ) (sig : Option (ℚ × ℚ))
    (s : OrientationState) (hx : |s.rotX| ≤ piQ / 4) (hz : |s.rotZ| ≤ piQ / 4) :
    |(orientationStep piQ sig s).rotX| ≤ piQ / 4 ∧
    |(orientationStep piQ sig s).rotZ| ≤ piQ / 4 := by
  cases sig with
  | none =>
      simp only [orientationStep]
      constructor <;>
        exact lerpQ_abs_le _ _ _ _ (by assumption)
          (by simpa using le_of_lt (by positivity : (0 : ℚ) < piQ / 4))
          (by norm_num) (by norm_num)
  | some bg =>
      simp only [orientationStep]
      have htX := clampQ_mem (degToRad piQ bg.1) (-(piQ / 4)) (piQ / 4) (by linarith)
      have htZ := clampQ_mem (degToRad piQ bg.2) (-(piQ / 4)) (piQ / 4) (by linarith)
      constructor
      · exact lerpQ_abs_le _ _ _ _ hx (abs_le.mpr ⟨htX.1, htX.2⟩) (by norm_num) (by norm_num)
      · refine lerpQ_abs_le _ _ _ _ hz (abs_le.mpr ⟨?_, ?_⟩) (by norm_num) (by norm_num) <;>
          · have h1 := htZ.1
            have h2 := htZ.2
            linarith

theorem shakeSystemStep_inv (e : ShakeEvent) (s : ShakeSystemState)
    (h1 : 0 ≤ s.detectorV) (h2 : s.detectorV ≤ 5)
    (h3 : 0 ≤ s.shakeIntensity) (h4 : s.shakeIntensity ≤ 8) :
    0 ≤ (shakeSystemStep e s).detectorV ∧ (shakeSystemStep e s).detectorV ≤ 5 ∧
    0 ≤ (shakeSystemStep e s).shakeIntensity ∧ (shakeSystemStep e s).shakeIntensity ≤ 8 := by
  cases e with
  | deviceMotion =>
      simp only [shakeSystemStep, deviceMotionShakeStep]
      exact ⟨h1, h2, le_min (by linarith) (by norm_num), min_le_right _ _⟩
  | detectorFrame speed =>
      simp only [shakeSystemStep, shakeDetectorStep]
      have hv0 : 0 ≤ (if speed > 3 then min (speed * 0.5) 5 else s.detectorV * 0.9) := by
        split_ifs with h
        · exact le_min (by linarith) (by norm_num)
        · linarith
      have hv5 : (if speed > 3 then min (speed * 0.5) 5 else s.detectorV * 0.9) ≤ 5 := by
        split_ifs with h
        · exact min_le_right _ _
        · linarith
      set v := (if speed > 3 then min (speed * 0.5) 5 else s.detectorV * 0.9) with hv
      refine ⟨hv0, hv5, ?_, ?_⟩ <;> split_ifs with h
      · exact hv0
      · exact h3
      · linarith [hv5]
      · exact h4
  | decayTick =>
      simp only [shakeSystemStep, shakeDecayStep, decayStep]
      refine ⟨h1, h2, ?_, ?_⟩ <;> split_ifs with h
      · exact le_max_left _ _
      · exact h3
      · exact max_le (by linarith) (by linarith)
      · exact h4

/-- Claim C1 (counterexample): the claim states that any particle whose
radial distance from the globe center exceeds the containment radius 9.0 is
respawned within that same tick.  Starting from the in-globe particle
(0, 1, 8.9) with zero velocity, one tick at wind intensity 10 and time t = 0
(so Math.cos = 1 and Math.sin = 0, the envCos1 oracle) moves it to
(0.02, 0.9, 9.8), of squared norm 96.8504 > 81, yet the reset branch does not
run because its height 0.9 is nonnegative: the tick leaves the velocity
z-component at 0.9, while the respawn operation always zeroes the velocity,
so the particle was not respawned. -/
theorem c1_counterexample :
    (particleTick envCos1 .Snow 0 10 0 midDraws particleAtRim).x *
        (particleTick envCos1 .Snow 0 10 0 midDraws particleAtRim).x +
      (particleTick envCos1 .Snow 0 10 0 midDraws particleAtRim).y *
        (particleTick envCos1 .Snow 0 10 0 midDraws particleAtRim).y +
      (particleTick envCos1 .Snow 0 10 0 midDraws particleAtRim).z *
        (particleTick envCos1 .Snow 0 10 0 midDraws particleAtRim).z >
      GLOBE_RADIUS * GLOBE_RADIUS ∧
    (particleTick envCos1 .Snow 0 10 0 midDraws particleAtRim).vz ≠ 0 := by
  simp [particleTick, particleMoved, particleRespawn, applyShake, applyWind,
    envCos1, midDraws, particleAtRim, GLOBE_RADIUS]
  norm_num

/-- Claim C1 (amended): after the containment/respawn logic of a tick, every
particle has height at least the floor threshold -5, and a particle can
remain beyond the radial containment bound only at nonnegative height (a
particle exceeding the radial bound at negative height, or below the floor,
is respawned within that same tick). -/
theorem c1_containment_amended (env : Env) (condition : WeatherCondition)
    (shakeIntensity windIntensity t : ℚ) (d : TickDraws) (p : Particle) :
    -5 ≤ (particleTick env condition shakeIntensity windIntensity t d p).y ∧
    ((particleTick env condition shakeIntensity windIntensity t d p).x *
        (particleTick env condition shakeIntensity windIntensity t d p).x +
      (particleTick env condition shakeIntensity windIntensity t d p).y *
        (particleTick env condition shakeIntensity windIntensity t d p).y +
      (particleTick env condition shakeIntensity windIntensity t d p).z *
        (particleTick env condition shakeIntensity windIntensity t d p).z ≤
        GLOBE_RADIUS * GLOBE_RADIUS ∨
      0 ≤ (particleTick env condition shakeIntensity windIntensity t d p).y) := by
  have hy : 0 ≤ (particleRespawn env windIntensity t d p).y := by
    simp only [particleRespawn]
    exact abs_nonneg _
  simp only [particleTick]
  split_ifs with h
  · exact ⟨by linarith, Or.inr hy⟩
  · push_neg at h
    refine ⟨h.1, ?_⟩
    rcases le_or_lt
      ((particleMoved env condition shakeIntensity windIntensity t d p).x *
          (particleMoved env condition shakeIntensity windIntensity t d p).x +
        (particleMoved env condition shakeIntensity windIntensity t d p).y *
          (particleMoved env condition shakeIntensity windIntensity t d p).y +
        (particleMoved env condition shakeIntensity windIntensity t d p).z *
          (particleMoved env condition shakeIntensity windIntensity t d p).z)
      (GLOBE_RADIUS * GLOBE_RADIUS) with hd | hd
    · exact Or.inl hd
    · exact Or.inr (h.2 hd)

/-- Claim C9: with wind intensity 10 (above the high-wind threshold 2) and a
trig phase where Math.sin(t * 0.5) = 1 (the envSin1 oracle), a particle that
fell below the floor is respawned by the reset branch (velocity zeroed,
height 27/5 in the top band) at x = -windX * 50 = -100, so its horizontal
squared distance 10000 exceeds the squared containment radius 81: the
respawn operation does not re-establish radial containment in the tick it
runs. -/
theorem c9_respawn_outside_containment :
    (particleTick envSin1 .Snow 0 10 0 midDraws particleBelowFloor).x = -100 ∧
    (particleTick envSin1 .Snow 0 10 0 midDraws particleBelowFloor).x *
        (particleTick envSin1 .Snow 0 10 0 midDraws particleBelowFloor).x +
      (particleTick envSin1 .Snow 0 10 0 midDraws particleBelowFloor).z *
        (particleTick envSin1 .Snow 0 10 0 midDraws particleBelowFloor).z >
      GLOBE_RADIUS * GLOBE_RADIUS ∧
    (particleTick envSin1 .Snow 0 10 0 midDraws particleBelowFloor).vx = 0 ∧
    (particleTick envSin1 .Snow 0 10 0 midDraws particleBelowFloor).vy = 0 ∧
    (particleTick envSin1 .Snow 0 10 0 midDraws particleBelowFloor).vz = 0 ∧
    (particleTick envSin1 .Snow 0 10 0 midDraws particleBelowFloor).y = 27 / 5 := by
  simp [particleTick, particleMoved, particleRespawn, applyShake, applyWind,
    envSin1, midDraws, particleBelowFloor, GLOBE_RADIUS]
  norm_num

/-- Claim C2 (counterexample): the claim reads the water criterion as noise
below the base threshold -1.2 LOWERED by the water bias (that is,
-1.2 - bias).  With the London profile (waterBias = 0.3) and noise value -1
the code classifies the cell as water, although -1 is not below
-1.2 - 0.3 = -1.5: the code adds the bias to the threshold instead of
subtracting it. -/
theorem c2_counterexample :
    (styleOf "London").waterBias = 0.3 ∧
    classifyCell (-1) ((styleOf "London").waterBias) false 0 = CellClass.water ∧
    ¬((-1 : ℚ) < -1.2 - (styleOf "London").waterBias) := by
  have hb : (styleOf "London").waterBias = 0.3 := by norm_num [styleOf]
  refine ⟨hb, ?_, ?_⟩
  · rw [hb]
    norm_num [classifyCell]
  · rw [hb]
    norm_num

/-- Claim C2 (amended): for every noise value, bias, layout density and road
draw, the cell is classified water exactly when the noise value is below the
base water threshold -1.2 RAISED by the water bias (noise < -1.2 + bias);
otherwise it is park exactly when the noise exceeds the fixed park threshold
1.3; otherwise road exactly when the road draw exceeds the density dependent
probability threshold (0.85 for dense layouts, 0.6 otherwise); otherwise
building. -/
theorem c2_water_threshold_amended (noise waterBias roadDraw : ℚ) (dense : Bool) :
    (classifyCell noise waterBias dense roadDraw = CellClass.water ↔
      noise < -1.2 + waterBias) ∧
    (classifyCell noise waterBias dense roadDraw = CellClass.park ↔
      ¬(noise < -1.2 + waterBias) ∧ noise > 1.3) ∧
    (classifyCell noise waterBias dense roadDraw = CellClass.road ↔
      ¬(noise < -1.2 + waterBias) ∧ ¬(noise > 1.3) ∧
        roadDraw > (if dense then 0.85 else 0.6)) ∧
    (classifyCell noise waterBias dense roadDraw = CellClass.building ↔
      ¬(noise < -1.2 + waterBias) ∧ ¬(noise > 1.3) ∧
        ¬(roadDraw > (if dense then 0.85 else 0.6))) := by
  unfold classifyCell
  split_ifs with h1 h2 h3 <;> simp_all

/-- Claim C3: for any stream of remote tilt signals (including extreme
values such as 1000 degrees) and any positive value of the pi constant, the
world rotation angles produced by the orientation update, starting from the
neutral rotation, stay within the symmetric clamp range [-pi/4, pi/4] at
every tick, both when interpolating toward a clamped target and when
returning to center without a signal. -/
theorem c3_orientation_clamp (piQ : ℚ) (hpi : 0 < piQ)
    (signals : ℕ → Option (ℚ × ℚ)) (n : ℕ) :
    |(orientationTrace piQ signals n).rotX| ≤ piQ / 4 ∧
    |(orientationTrace piQ signals n).rotZ| ≤ piQ / 4 := by
  induction n with
  | zero =>
      constructor <;>
        simpa [orientationTrace] using le_of_lt (by positivity : (0 : ℚ) < piQ / 4)
  | succ n ih =>
      exact orientationStep_mem piQ hpi (signals n) _ ih.1 ih.2

/-- Witness for C3 at the concrete inputs piQ = 3 and the constant extreme
signal (1000, -1000) degrees, after two ticks. -/
theorem c3_orientation_clamp_witness :
    |(orientationTrace 3 (fun _ => some (1000, -1000)) 2).rotX| ≤ 3 / 4 ∧
    |(orientationTrace 3 (fun _ => some (1000, -1000)) 2).rotZ| ≤ 3 / 4 :=
  c3_orientation_clamp 3 (by norm_num) (fun _ => some (1000, -1000)) 2

/-- Claim C4: for every city identifier, two generation runs whose RNG states
are both freshly derived by summing the character codes of the identifier
produce identical results, collection by collection, in all four output
collections (terrain, buildings, props, presence markers); the generation
pass itself is such a run.  In this embedding the generator is a pure
function of the oracle, the style and the initial seed, so the content of
the claim is that the output depends on nothing else (no hidden entropy
source), which the statement expresses for any two fresh seed states. -/
theorem c4_generation_deterministic (env : Env) (cityName : String) (s1 s2 : ℕ)
    (h1 : s1 = seedOf cityName) (h2 : s2 = seedOf cityName) :
    generateFrom env (styleOf cityName) s1 = generateFrom env (styleOf cityName) s2 ∧
    generate env cityName = generateFrom env (styleOf cityName) s1 ∧
    (generateFrom env (styleOf cityName) s1).terrain =
      (generateFrom env (styleOf cityName) s2).terrain ∧
    (generateFrom env (styleOf cityName) s1).buildings =
      (generateFrom env (styleOf cityName) s2).buildings ∧
    (generateFrom env (styleOf cityName) s1).props =
      (generateFrom env (styleOf cityName) s2).props ∧
    (generateFrom env (styleOf cityName) s1).presenceLights =
      (generateFrom env (styleOf cityName) s2).presenceLights := by
  subst h1
  subst h2
  exact ⟨rfl, rfl, rfl, rfl, rfl, rfl⟩

/-- Witness for C4 at the concrete city identifier London with the env0
oracle, both runs starting from the freshly derived seed. -/
theorem c4_generation_deterministic_witness :
    generateFrom env0 (styleOf "London") (seedOf "London") =
      generateFrom env0 (styleOf "London") (seedOf "London") :=
  (c4_generation_deterministic env0 "London" (seedOf "London") (seedOf "London")
    rfl rfl).1

/-- Claim C5: given zero new forcing events, the shake intensity scalar and
the remote wind intensity scalar are non-increasing tick-over-tick, strictly
decrease while positive (fixed subtraction per decay interval, floored at
zero), and reach exactly zero within a bounded number of ticks from any
starting value within their clamped ranges: 80 ticks from the shake range
[0, 8] at 0.1 per tick, 50 ticks from the wind range [0, 10] at 0.2 per
tick. -/
theorem c5_decay_convergence (s w : ℚ) (hs0 : 0 ≤ s) (hs8 : s ≤ 8)
    (hw0 : 0 ≤ w) (hw10 : w ≤ 10) :
    (∀ n : ℕ, shakeDecayStep^[n + 1] s ≤ shakeDecayStep^[n] s) ∧
    (0 < s → shakeDecayStep s < s) ∧
    shakeDecayStep^[80] s = 0 ∧
    (∀ n : ℕ, remoteWindDecayStep^[n + 1] w ≤ remoteWindDecayStep^[n] w) ∧
    (0 < w → remoteWindDecayStep w < w) ∧
    remoteWindDecayStep^[50] w = 0 := by
  have hshake : shakeDecayStep = decayStep 0.1 := rfl
  have hwind : remoteWindDecayStep = decayStep 0.2 := rfl
  rw [hshake, hwind]
  refine ⟨?_, ?_, ?_, ?_, ?_, ?_⟩
  · intro n
    rw [decayStep_iterate 0.1 (by norm_num) s hs0 (n + 1),
      decayStep_iterate 0.1 (by norm_num) s hs0 n]
    refine max_le_max le_rfl ?_
    push_cast
    linarith
  · intro hpos
    unfold decayStep
    rw [if_pos hpos]
    exact max_lt hpos (by linarith)
  · rw [decayStep_iterate 0.1 (by norm_num) s hs0 80, max_eq_left (by push_cast; linarith)]
  · intro n
    rw [decayStep_iterate 0.2 (by norm_num) w hw0 (n + 1),
      decayStep_iterate 0.2 (by norm_num) w hw0 n]
    refine max_le_max le_rfl ?_
    push_cast
    linarith
  · intro hpos
    unfold decayStep
    rw [if_pos hpos]
    exact max_lt hpos (by linarith)
  · rw [decayStep_iterate 0.2 (by norm_num) w hw0 50, max_eq_left (by push_cast; linarith)]

/-- Witness for C5 at the concrete starting values s = 5 and w = 5. -/
theorem c5_decay_convergence_witness :
    (∀ n : ℕ, shakeDecayStep^[n + 1] (5 : ℚ) ≤ shakeDecayStep^[n] 5) ∧
    ((0 : ℚ) < 5 → shakeDecayStep 5 < 5) ∧
    shakeDecayStep^[80] (5 : ℚ) = 0 ∧
    (∀ n : ℕ, remoteWindDecayStep^[n + 1] (5 : ℚ) ≤ remoteWindDecayStep^[n] 5) ∧
    ((0 : ℚ) < 5 → remoteWindDecayStep 5 < 5) ∧
    remoteWindDecayStep^[50] (5 : ℚ) = 0 :=
  c5_decay_convergence 5 5 (by norm_num) (by norm_num) (by norm_num) (by norm_num)

/-- Claim C6: when the weather category is Clear (and likewise Clouds) the
particle component renders no instanced mesh, hence emits zero particle
primitives, and the frame callback performs no per-particle work (the
particle list passes through unchanged), for every shake and wind intensity. -/
theorem c6_clear_weather_suppression (condition : WeatherCondition)
    (h : condition = .Clear ∨ condition = .Clouds) (count : ℕ) (env : Env)
    (shakeIntensity windIntensity t : ℚ) (ps : List (Particle × TickDraws)) :
    particlesRender condition count = none ∧
    emittedPrimitives condition count = 0 ∧
    particlesFrame env condition shakeIntensity windIntensity t count ps =
      ps.map Prod.fst := by
  have hr : particlesRender condition count = none := by
    unfold particlesRender
    rw [if_pos h]
  refine ⟨hr, ?_, ?_⟩
  · unfold emittedPrimitives
    rw [hr]
    rfl
  · unfold particlesFrame
    rw [hr]
    simp

/-- Witness for C6 at the concrete condition Clear, shake 8, wind 10 and a
one-particle pool. -/
theorem c6_clear_weather_suppression_witness :
    particlesRender .Clear 1200 = none ∧
    emittedPrimitives .Clear 1200 = 0 ∧
    particlesFrame env0 .Clear 8 10 0 1200 [(particleAtRim, midDraws)] =
      [(particleAtRim, midDraws)].map Prod.fst :=
  c6_clear_weather_suppression .Clear (Or.inl rfl) 1200 env0 8 10 0
    [(particleAtRim, midDraws)]

/-- Claim C7 (counterexample): the claim states that a negative forcing
signal value is clamped to zero and never propagated into the simulation
state.  A wind message of intensity -5 is stored verbatim by the handler
(setRemoteWindIntensity(data.intensity)): the stored scalar is -5, not 0. -/
theorem c7_counterexample :
    remoteWindMsgStep (-5) 0 = -5 ∧ remoteWindMsgStep (-5) 0 ≠ 0 := by
  refine ⟨rfl, ?_⟩
  norm_num [remoteWindMsgStep]

/-- Claim C7 (amended): invalid (negative) forcing values are not clamped on
receipt - a wind message intensity is stored verbatim into the remote wind
scalar - but the particle simulator applies shake impulses only when the
shake scalar is positive and wind impulses only when the wind scalar exceeds
0.1, so a non-positive shake or wind intensity injects no impulse into
particle velocity. -/
theorem c7_negative_forcing_amended
    (shakeIntensity windIntensity windX windZ vx vy vz d1 d2 d3 i prev : ℚ)
    (hs : shakeIntensity ≤ 0) (hw : windIntensity ≤ 0.1) :
    applyShake shakeIntensity d1 d2 d3 vx vy vz = (vx, vy, vz) ∧
    applyWind windIntensity windX windZ vx vy vz = (vx, vy, vz) ∧
    remoteWindMsgStep i prev = i := by
  refine ⟨?_, ?_, rfl⟩
  · unfold applyShake
    rw [if_neg (not_lt.mpr hs)]
  · unfold applyWind
    rw [if_neg (not_lt.mpr hw)]

/-- Witness for C7 (amended) at the concrete invalid intensities -1 (shake)
and -5 (wind). -/
theorem c7_negative_forcing_amended_witness :
    applyShake (-1) 0.5 0.5 0.5 1 2 3 = (1, 2, 3) ∧
    applyWind (-5) 7 7 1 2 3 = (1, 2, 3) ∧
    remoteWindMsgStep (-5) 0 = -5 :=
  c7_negative_forcing_amended (-1) (-5) 7 7 1 2 3 0.5 0.5 0.5 (-5) 0
    (by norm_num) (by norm_num)

/-- Claim C8: injecting ten consecutive shake events of intensity 5 within
one decay window (no decay tick in between) drives the decaying scalar to
its clamped maximum 10, not to the sum 50; moreover every remote shake event
is clamped against the fixed maximum 10, and every local device-motion event
is clamped against the fixed maximum 8. -/
theorem c8_shake_burst_clamped :
    ([5, 5, 5, 5, 5, 5, 5, 5, 5, 5] : List ℚ).foldl
        (fun s i => remoteShakeMsgStep i s) 0 = 10 ∧
    (10 : ℚ) ≠ 50 ∧
    (∀ prev i : ℚ, remoteShakeMsgStep i prev ≤ 10) ∧
    (∀ prev : ℚ, deviceMotionShakeStep prev ≤ 8) := by
  refine ⟨?_, by norm_num, fun prev i => min_le_right _ _,
    fun prev => min_le_right _ _⟩
  norm_num [remoteShakeMsgStep, List.foldl, min_def]

/-- Claim C10: for every sequence of shake events (device motion events,
camera detector frames with arbitrary azimuth speed, decay ticks) starting
from the initial zero state, the shake intensity scalar consumed by the
particle simulator stays in the interval [0, 8], and the camera detector
proposal stays in [0, 5]: the device-motion handler adds a fixed increment
of 2 clamped to 8, the detector proposes at most 5 and replaces the scalar
only when larger, and the decay path subtracts 0.1 per interval floored at
exactly 0. -/
theorem c10_shake_scalar_bounded (evs : List ShakeEvent) :
    0 ≤ (shakeSystemRun evs).shakeIntensity ∧
    (shakeSystemRun evs).shakeIntensity ≤ 8 ∧
    0 ≤ (shakeSystemRun evs).detectorV ∧
    (shakeSystemRun evs).detectorV ≤ 5 := by
  have main : ∀ (l : List ShakeEvent) (s : ShakeSystemState),
      0 ≤ s.detectorV → s.detectorV ≤ 5 → 0 ≤ s.shakeIntensity → s.shakeIntensity ≤ 8 →
      0 ≤ (l.foldl (fun a e => shakeSystemStep e a) s).detectorV ∧
        (l.foldl (fun a e => shakeSystemStep e a) s).detectorV ≤ 5 ∧
        0 ≤ (l.foldl (fun a e => shakeSystemStep e a) s).shakeIntensity ∧
        (l.foldl (fun a e => shakeSystemStep e a) s).shakeIntensity ≤ 8 := by
    intro l
    induction l with
    | nil => intro s h1 h2 h3 h4; exact ⟨h1, h2, h3, h4⟩
    | cons e tl ih =>
        intro s h1 h2 h3 h4
        have hstep := shakeSystemStep_inv e s h1 h2 h3 h4
        simpa using ih (shakeSystemStep e s) hstep.1 hstep.2.1 hstep.2.2.1 hstep.2.2.2
  have h := main evs { detectorV := 0, shakeIntensity := 0 }
    (by norm_num) (by norm_num) (by norm_num) (by norm_num)
  exact ⟨h.2.2.1, h.2.2.2, h.1, h.2.1⟩
